import Mathlib

/-!
Shallow embedding of the gitbase-auto-update tool (src/main.rs): a
repository-synchronisation helper that clones a remote repository on first
run and fetch/hard-resets the local checkout on subsequent runs.

External effects (the file system, libgit2 calls, terminal output and the
progress bar) are modelled by an explicit `World` of fallible operations;
each modelled procedure returns the trace of events it performs together
with its result, so the theorems can speak about which calls happen, with
which arguments, and in which order.
-/

namespace GitbaseAutoUpdate

/-- Commit object id (`git2::Oid`), modelled as a natural number. -/
abbrev Oid := Nat

/-- The configuration record `struct Settings { url, path, branch }`
deserialised from `./settings.xml` (src/main.rs lines 10-15). -/
structure Settings where
  url : String
  path : String
  branch : String
  deriving DecidableEq, Repr

/-- The subset of `git2::ErrorCode` the program distinguishes: `NotFound`
is matched explicitly at the clone site; every other code is `other`. -/
inductive ErrorCode where
  | notFound
  | other
  deriving DecidableEq, Repr

/-- A `git2::Error`: a code plus its display message. -/
structure GitError where
  code : ErrorCode
  msg : String
  deriving DecidableEq, Repr

/-- Opaque handle for `git2::Repository`. -/
structure Repo where
  id : Nat
  deriving DecidableEq, Repr

/-- Opaque handle for `git2::Remote`. -/
structure Remote where
  id : Nat
  deriving DecidableEq, Repr

/-- Opaque handle for a `git2::Reference`. -/
structure GitRef where
  id : Nat
  deriving DecidableEq, Repr

/-- A `git2::AnnotatedCommit`: the program only reads its `id()`. -/
structure AnnotatedCommit where
  id : Oid
  deriving DecidableEq, Repr

/-- A local `git2::Branch`: the program only reads `get().target()`,
which may be absent (it is unwrapped). -/
structure Branch where
  target : Option Oid
  deriving DecidableEq, Repr

/-- A `git2::Commit`: the program reads `id()` and `message()` (the
message may be absent). -/
structure Commit where
  id : Oid
  message : Option String
  deriving DecidableEq, Repr

/-- `git2::ResetType`; the program only ever uses `Hard`. -/
inductive ResetType where
  | soft
  | mixed
  | hard
  deriving DecidableEq, Repr

/-- Observable events of a program execution: the file read, terminal
lines, progress-bar lifecycle, and each version-control library call with
its arguments. `vcsMergeAnalysis` is included so that statements about a
merge-analysis step can be expressed; the embedding of the source never
emits it, because the source contains no merge-analysis call. -/
inductive Event where
  | fileRead (path : String)
  | printLine (s : String)
  | spawnBar
  | barFinish
  | vcsOpen (path : String)
  | vcsClone (branch url path : String) (depth : Nat)
  | vcsFindRemote (name : String)
  | vcsFetch (remoteName : String) (refspecs : List String)
  | vcsFindReference (name : String)
  | vcsFindBranch (name : String)
  | vcsFindCommit (oid : Oid)
  | vcsMergeAnalysis
  | vcsReset (oid : Oid) (ty : ResetType)
  deriving DecidableEq, Repr

/-- Whether an event is a version-control library call. -/
def Event.isVcs : Event → Bool
  | .vcsOpen _ => true
  | .vcsClone _ _ _ _ => true
  | .vcsFindRemote _ => true
  | .vcsFetch _ _ => true
  | .vcsFindReference _ => true
  | .vcsFindBranch _ => true
  | .vcsFindCommit _ => true
  | .vcsMergeAnalysis => true
  | .vcsReset _ _ => true
  | _ => false

/-- Whether an event is a merge-analysis call. -/
def Event.isMergeAnalysis : Event → Bool
  | .vcsMergeAnalysis => true
  | _ => false

/-- Whether an event is a configuration-file read. -/
def Event.isFileRead : Event → Bool
  | .fileRead _ => true
  | _ => false

/-- The environment: one field per fallible external operation the program
performs, mirroring the libgit2 / file-system calls of src/main.rs.
`settingsXml` is the content of `./settings.xml` (`None` when the file is
missing); `parseSettings` is `quick_xml::de::from_str`; the remaining
fields are the git2 operations, returning `none` (or `Except.error`) when
the underlying call fails. -/
structure World where
  settingsXml : Option String
  parseSettings : String → Option Settings
  openRepo : String → Option Repo
  cloneRepo : String → String → String → Nat → Except GitError Repo
  findRemote : Repo → String → Option Remote
  fetchRemote : Remote → List String → Option Unit
  findReference : Repo → String → Option GitRef
  refToAnnotatedCommit : GitRef → Option AnnotatedCommit
  findBranch : Repo → String → Option Branch
  findCommit : Oid → Option Commit
  resetHard : Repo → Oid → Option Unit

/-- Result of `run`: the returned repository, a propagated `git2::Error`,
or a panic (src/main.rs lines 62-67 panic when the clone fails with
`ErrorCode::NotFound`). -/
inductive RunResult where
  | ok (repo : Repo)
  | err (e : GitError)
  | panicked (msg : String)
  deriving DecidableEq, Repr

/-- Final outcome of `main`: normal termination or a panic with a
message. -/
inductive Outcome where
  | normal
  | panic (msg : String)
  deriving DecidableEq, Repr

/-- Panic message for an unwrap on an error result (the payload of the
underlying error is elided in the model). -/
def unwrapErrMsg : String := "called Result::unwrap() on an Err value"

/-- Panic message for an unwrap on an absent optional value. -/
def unwrapNoneMsg : String := "called Option::unwrap() on a None value"

/-- The status line printed before cloning (src/main.rs lines 48-51). -/
def cloningMsg (s : Settings) : String :=
  "Cloning repository from '" ++ s.url ++ "' into directory '" ++ s.path ++
    "'. Please wait..."

/-- The explicit panic message when the clone fails with `NotFound`
(src/main.rs lines 63-66). -/
def cloneNotFoundMsg (s : Settings) : String :=
  "Could not clone repository from '" ++ s.url ++ "' branch '" ++ s.branch ++
    "' does not existed."

/-- The status line printed before the hard reset (src/main.rs line 109). -/
def resettingMsg (branch : String) : String :=
  "Resetting local '" ++ branch ++ "' to 'origin/HEAD'..."

/-- Rust's `str::trim`: drop leading and trailing whitespace. Modelled
structurally on the underlying character list. -/
def trimString (s : String) : String :=
  { data := ((s.data.dropWhile Char.isWhitespace).reverse.dropWhile
      Char.isWhitespace).reverse }

/-- The final status line (src/main.rs lines 131-138): the commit id and
its message (defaulted and trimmed). -/
def currentHeadMsg (c : Commit) : String :=
  "Current HEAD at commit " ++ toString c.id ++ ": " ++
    trimString (c.message.getD "No commit message")

/-- Mutable state of an `indicatif::ProgressBar` as far as the program
touches it: its length and its position. -/
structure ProgressBarState where
  length : Nat
  position : Nat
  deriving DecidableEq, Repr

/-- The transfer-progress callback installed before cloning
(src/main.rs lines 39-46): set the length to the total object count, then
set the position to `min(received_objects, total_objects)`. -/
def transferProgressCb (receivedObjects totalObjects : Nat)
    (pb : ProgressBarState) : ProgressBarState :=
  let pb1 := { pb with length := totalObjects }
  { pb1 with position := min receivedObjects totalObjects }

/-- The checkout-progress callback installed before the hard reset
(src/main.rs lines 113-118): set the length to `total`, then set the
position to `min(cur, total)`. -/
def checkoutProgressCb (cur total : Nat)
    (pb : ProgressBarState) : ProgressBarState :=
  let pb1 := { pb with length := total }
  { pb1 with position := min cur total }

/-- `fn run(settings) -> Result<Repository, git2::Error>`
(src/main.rs lines 26-74): try to open the repository at the configured
path; on success return it at once. Otherwise spawn a progress bar, print
the cloning line, and clone with the configured branch and fetch depth 1;
a clone failure with `NotFound` panics, any other clone failure is
returned as `Err`. -/
def run (w : World) (s : Settings) : List Event × RunResult :=
  match w.openRepo s.path with
  | some repo => ([.vcsOpen s.path], .ok repo)
  | none =>
    let ev : List Event :=
      [.vcsOpen s.path, .spawnBar, .printLine (cloningMsg s),
        .vcsClone s.branch s.url s.path 1]
    match w.cloneRepo s.branch s.url s.path 1 with
    | .ok repo => (ev ++ [.barFinish], .ok repo)
    | .error e =>
      if e.code = .notFound then (ev, .panicked (cloneNotFoundMsg s))
      else (ev, .err e)

/-- The `Ok(repo)` arm of the match in `main` (src/main.rs lines 86-139):
fetch the refspec `refs/head/<branch>` from `origin`, read
`refs/remotes/origin/HEAD` and the local branch tip, and either report
"Already up to date" or hard-reset to the origin/HEAD commit; finally
print the current-HEAD line. Every failed call is unwrapped (panics). -/
def sync (w : World) (s : Settings) (repo : Repo) : List Event × Outcome :=
  match w.findRemote repo "origin" with
  | none => ([.vcsFindRemote "origin"], .panic unwrapErrMsg)
  | some remote =>
    let ev0 : List Event :=
      [.vcsFindRemote "origin", .vcsFetch "origin" ["refs/head/" ++ s.branch]]
    match w.fetchRemote remote ["refs/head/" ++ s.branch] with
    | none => (ev0, .panic unwrapErrMsg)
    | some _ =>
      let ev1 := ev0 ++ [.vcsFindReference "refs/remotes/origin/HEAD"]
      match w.findReference repo "refs/remotes/origin/HEAD" with
      | none => (ev1, .panic unwrapErrMsg)
      | some originHead =>
        match w.refToAnnotatedCommit originHead with
        | none => (ev1, .panic unwrapErrMsg)
        | some originAnnotated =>
          let ev2 := ev1 ++ [.vcsFindBranch s.branch]
          match w.findBranch repo s.branch with
          | none => (ev2, .panic unwrapErrMsg)
          | some localBranch =>
            match localBranch.target with
            | none => (ev2, .panic unwrapNoneMsg)
            | some localOid =>
              let originOid := originAnnotated.id
              let ev3 := ev2 ++ [.vcsFindCommit originOid]
              match w.findCommit originOid with
              | none => (ev3, .panic unwrapErrMsg)
              | some originCommit =>
                if localOid = originOid then
                  (ev3 ++ [.printLine "Already up to date",
                    .printLine (currentHeadMsg originCommit)], .normal)
                else
                  let ev4 := ev3 ++ [.printLine (resettingMsg s.branch),
                    .spawnBar, .vcsReset originCommit.id .hard]
                  match w.resetHard repo originCommit.id with
                  | none => (ev4, .panic unwrapErrMsg)
                  | some _ =>
                    (ev4 ++ [.barFinish,
                      .printLine "Local branch reset to 'origin/HEAD'",
                      .printLine (currentHeadMsg originCommit)], .normal)

/-- `fn main()` (src/main.rs lines 76-142): read `./settings.xml`,
deserialise it, abort when `url` or `path` is empty, call `run`, then on
`Ok` synchronise, and on `Err` print `error: <message>` and terminate
normally. -/
def main (w : World) : List Event × Outcome :=
  match w.settingsXml with
  | none => ([.fileRead "./settings.xml"], .panic unwrapErrMsg)
  | some xml =>
    match w.parseSettings xml with
    | none => ([.fileRead "./settings.xml"], .panic unwrapErrMsg)
    | some settings =>
      if settings.url.isEmpty || settings.path.isEmpty then
        ([.fileRead "./settings.xml"], .panic "url or path could not be empty")
      else
        let res := run w settings
        let pre := Event.fileRead "./settings.xml" :: res.1
        match res.2 with
        | .panicked msg => (pre, .panic msg)
        | .err e => (pre ++ [.printLine ("error: " ++ e.msg)], .normal)
        | .ok repo =>
          let rest := sync w settings repo
          (pre ++ rest.1, rest.2)

/-- A concrete settings record used to instantiate the theorems. -/
def settingsA : Settings :=
  { url := "https://example.com/repo.git", path := "/srv/app", branch := "dev" }

/-- Settings with an empty branch field (url and path nonempty). -/
def settingsEmptyBranch : Settings :=
  { url := "https://example.com/repo.git", path := "/srv/app", branch := "" }

/-- Settings with an empty url field. -/
def settingsEmptyUrl : Settings :=
  { url := "", path := "/srv/app", branch := "dev" }

/-- A concrete repository handle. -/
def repoA : Repo := { id := 1 }

/-- A concrete world in which every operation succeeds: the repository
opens at the configured path, origin/HEAD resolves to commit 5, the local
branch tip is commit 3, and every commit lookup returns a commit carrying
its requested id and a message. -/
def wSubDiff : World where
  settingsXml := some "<Settings></Settings>"
  parseSettings := fun _ => some settingsA
  openRepo := fun _ => some repoA
  cloneRepo := fun _ _ _ _ => .ok repoA
  findRemote := fun _ _ => some { id := 1 }
  fetchRemote := fun _ _ => some ()
  findReference := fun _ _ => some { id := 1 }
  refToAnnotatedCommit := fun _ => some { id := 5 }
  findBranch := fun _ _ => some { target := some 3 }
  findCommit := fun oid => some { id := oid, message := some "  bump version  " }
  resetHard := fun _ _ => some ()

/-- Like `wSubDiff`, but the local branch tip already equals origin/HEAD. -/
def wSubSame : World :=
  { wSubDiff with findBranch := fun _ _ => some { target := some 5 } }

/-- Like `wSubDiff`, but no repository exists at the configured path, so
the program clones (first run). -/
def wFirst : World :=
  { wSubDiff with openRepo := fun _ => none }

/-- First run in which the clone fails with a non-`NotFound` error. -/
def wCloneErr : World :=
  { wSubDiff with
    openRepo := fun _ => none
    cloneRepo := fun _ _ _ _ => .error { code := .other, msg := "network failure" } }

/-- First run in which the clone fails with `NotFound`. -/
def wCloneNF : World :=
  { wSubDiff with
    openRepo := fun _ => none
    cloneRepo := fun _ _ _ _ => .error { code := .notFound, msg := "branch not found" } }

/-- World whose configuration file is missing. -/
def wNoFile : World := { wSubDiff with settingsXml := none }

/-- World whose configuration file does not deserialise. -/
def wBadXml : World := { wSubDiff with parseSettings := fun _ => none }

/-- World whose parsed settings have an empty url. -/
def wEmptyUrl : World :=
  { wSubDiff with parseSettings := fun _ => some settingsEmptyUrl }

/-- First-run world whose parsed settings have an empty branch. -/
def wEmptyBranch : World :=
  { wFirst with parseSettings := fun _ => some settingsEmptyBranch }

/-- Subsequent-run world whose fetch fails. -/
def wFetchFail : World :=
  { wSubDiff with fetchRemote := fun _ _ => none }

/-- Subsequent-run world whose hard reset fails. -/
def wResetFail : World :=
  { wSubDiff with resetHard := fun _ _ => none }

/-- Spec-side reading of "fetches the remote's default branch": a fetch of
a branch `b` from the `origin` remote is a fetch call on the remote named
`origin` whose refspec list names `b` under the canonical `refs/heads/`
namespace. This definition follows the spec's words, to be compared with
the fetch call the embedded source actually makes. -/
def specFetchesBranch (b : String) (tr : List Event) : Prop :=
  Event.vcsFetch "origin" ["refs/heads/" ++ b] ∈ tr

/-- Whether a refspec string lies under the `refs/heads/` namespace. -/
def namesHeadsRef (r : String) : Bool :=
  decide (r.data.take 11 = "refs/heads/".data)

/-- Whether some fetch event of a trace carries a refspec under the
`refs/heads/` namespace. -/
def fetchesHeadsRef (tr : List Event) : Bool :=
  tr.any fun e =>
    match e with
    | .vcsFetch _ refspecs => refspecs.any namesHeadsRef
    | _ => false

/-- If a trace fetches some branch in the spec's sense, then some fetch
event of the trace carries a `refs/heads/` refspec. -/
theorem specFetchesBranch_heads (b : String) (tr : List Event)
    (h : specFetchesBranch b tr) : fetchesHeadsRef tr = true := by
  have hname : namesHeadsRef ("refs/heads/" ++ b) = true := by
    unfold namesHeadsRef
    rw [decide_eq_true_eq, String.data_append]
    exact List.take_left' rfl
  unfold fetchesHeadsRef
  rw [List.any_eq_true]
  exact ⟨Event.vcsFetch "origin" ["refs/heads/" ++ b], h, by simp [hname]⟩

/-- When the repository opens, `run` is just the open call. -/
theorem run_eq_of_open (w : World) (s : Settings) (repo : Repo)
    (hopen : w.openRepo s.path = some repo) :
    run w s = ([Event.vcsOpen s.path], RunResult.ok repo) := by
  simp [run, hopen]

/-- When the open fails and the clone succeeds, `run` spawns the bar,
prints the cloning line, clones with depth 1, and finishes the bar. -/
theorem run_eq_of_clone (w : World) (s : Settings) (repo : Repo)
    (hopen : w.openRepo s.path = none)
    (hclone : w.cloneRepo s.branch s.url s.path 1 = .ok repo) :
    run w s = ([Event.vcsOpen s.path, Event.spawnBar,
      Event.printLine (cloningMsg s), Event.vcsClone s.branch s.url s.path 1,
      Event.barFinish], RunResult.ok repo) := by
  simp [run, hopen, hclone]

/-- When the open fails and the clone fails, `run` panics on `NotFound`
and propagates any other error. -/
theorem run_eq_of_clone_error (w : World) (s : Settings) (e : GitError)
    (hopen : w.openRepo s.path = none)
    (hclone : w.cloneRepo s.branch s.url s.path 1 = .error e) :
    run w s = ([Event.vcsOpen s.path, Event.spawnBar,
      Event.printLine (cloningMsg s), Event.vcsClone s.branch s.url s.path 1],
      if e.code = ErrorCode.notFound then RunResult.panicked (cloneNotFoundMsg s)
      else RunResult.err e) := by
  by_cases h : e.code = ErrorCode.notFound <;> simp [run, hopen, hclone, h]

/-- Full evaluation of `sync` when every lookup succeeds: the fetch, the
reference and branch lookups, then either the up-to-date report or the
hard reset, decided by comparing the local tip with origin/HEAD. -/
theorem sync_eq (w : World) (s : Settings) (repo : Repo) (remote : Remote)
    (originHead : GitRef) (ac : AnnotatedCommit) (localOid : Oid) (c : Commit)
    (hremote : w.findRemote repo "origin" = some remote)
    (hfetch : w.fetchRemote remote ["refs/head/" ++ s.branch] = some ())
    (href : w.findReference repo "refs/remotes/origin/HEAD" = some originHead)
    (hann : w.refToAnnotatedCommit originHead = some ac)
    (hbr : w.findBranch repo s.branch = some { target := some localOid })
    (hcommit : w.findCommit ac.id = some c)
    (hreset : w.resetHard repo c.id = some ()) :
    sync w s repo =
      ([Event.vcsFindRemote "origin",
        Event.vcsFetch "origin" ["refs/head/" ++ s.branch],
        Event.vcsFindReference "refs/remotes/origin/HEAD",
        Event.vcsFindBranch s.branch, Event.vcsFindCommit ac.id] ++
        (if localOid = ac.id then
          [Event.printLine "Already up to date",
            Event.printLine (currentHeadMsg c)]
        else
          [Event.printLine (resettingMsg s.branch), Event.spawnBar,
            Event.vcsReset c.id ResetType.hard, Event.barFinish,
            Event.printLine "Local branch reset to 'origin/HEAD'",
            Event.printLine (currentHeadMsg c)]),
      Outcome.normal) := by
  by_cases h : localOid = ac.id <;>
    simp [sync, hremote, hfetch, href, hann, hbr, hcommit, hreset, h]

/-- Glue: the behaviour of `main` once the configuration has been read,
parsed and validated, when `run` returns a repository. -/
theorem main_eq (w : World) (xml : String) (s : Settings) (repo : Repo)
    (tr tr2 : List Event) (out : Outcome)
    (hxml : w.settingsXml = some xml)
    (hparse : w.parseSettings xml = some s)
    (hu : s.url.isEmpty = false) (hp : s.path.isEmpty = false)
    (hrun : run w s = (tr, RunResult.ok repo))
    (hsync : sync w s repo = (tr2, out)) :
    main w = (Event.fileRead "./settings.xml" :: (tr ++ tr2), out) := by
  simp [main, hxml, hparse, hu, hp, hrun, hsync]

/-- Glue: the behaviour of `main` when `run` propagates an error: the
error is printed and the program terminates normally. -/
theorem main_eq_err (w : World) (xml : String) (s : Settings) (e : GitError)
    (tr : List Event)
    (hxml : w.settingsXml = some xml)
    (hparse : w.parseSettings xml = some s)
    (hu : s.url.isEmpty = false) (hp : s.path.isEmpty = false)
    (hrun : run w s = (tr, RunResult.err e)) :
    main w = (Event.fileRead "./settings.xml" ::
      (tr ++ [Event.printLine ("error: " ++ e.msg)]), Outcome.normal) := by
  simp [main, hxml, hparse, hu, hp, hrun]

/-- Glue: the behaviour of `main` when `run` panics. -/
theorem main_eq_panicked (w : World) (xml : String) (s : Settings)
    (msg : String) (tr : List Event)
    (hxml : w.settingsXml = some xml)
    (hparse : w.parseSettings xml = some s)
    (hu : s.url.isEmpty = false) (hp : s.path.isEmpty = false)
    (hrun : run w s = (tr, RunResult.panicked msg)) :
    main w = (Event.fileRead "./settings.xml" :: tr, Outcome.panic msg) := by
  simp [main, hxml, hparse, hu, hp, hrun]

/-- C1 (counterexample): the program does not fetch the remote's default
branch — nor any branch under the canonical `refs/heads/` namespace — on a
subsequent run: in a concrete run in which a repository is opened and the
whole synchronisation succeeds, the one fetch call carries the refspec
`refs/head/dev` built from the configured branch, and no branch `b` has a
`refs/heads/b` refspec fetched. -/
theorem c1_no_default_branch_fetch :
    (¬ ∃ b : String, specFetchesBranch b (main wSubDiff).1) ∧
    Event.vcsFetch "origin" ["refs/head/dev"] ∈ (main wSubDiff).1 := by
  constructor
  · rintro ⟨b, hb⟩
    have htrue := specFetchesBranch_heads b _ hb
    have hfalse : fetchesHeadsRef (main wSubDiff).1 = false := by decide
    rw [htrue] at hfalse
    exact Bool.noConfusion hfalse
  · decide

/-- C1 (amended): on a subsequent run — a repository exists at the
configured path and is opened — the program calls fetch on the `origin`
remote with the single refspec `refs/head/<configured branch>` (the
configured branch name under a malformed `refs/head/` prefix, not the
remote's default branch); then, if the local branch's tip commit differs
from the origin/HEAD commit, it hard-resets the local checkout to the
origin/HEAD commit; and finally it prints the resulting commit's id and
message. -/
theorem c1_subsequent_fetch_and_reset (w : World) (xml : String)
    (s : Settings) (repo : Repo) (remote : Remote) (originHead : GitRef)
    (ac : AnnotatedCommit) (localOid : Oid) (c : Commit)
    (hxml : w.settingsXml = some xml)
    (hparse : w.parseSettings xml = some s)
    (hu : s.url.isEmpty = false) (hp : s.path.isEmpty = false)
    (hopen : w.openRepo s.path = some repo)
    (hremote : w.findRemote repo "origin" = some remote)
    (hfetch : w.fetchRemote remote ["refs/head/" ++ s.branch] = some ())
    (href : w.findReference repo "refs/remotes/origin/HEAD" = some originHead)
    (hann : w.refToAnnotatedCommit originHead = some ac)
    (hbr : w.findBranch repo s.branch = some { target := some localOid })
    (hcommit : w.findCommit ac.id = some c)
    (hreset : w.resetHard repo c.id = some ()) :
    main w =
      ([Event.fileRead "./settings.xml", Event.vcsOpen s.path,
        Event.vcsFindRemote "origin",
        Event.vcsFetch "origin" ["refs/head/" ++ s.branch],
        Event.vcsFindReference "refs/remotes/origin/HEAD",
        Event.vcsFindBranch s.branch, Event.vcsFindCommit ac.id] ++
        (if localOid = ac.id then
          [Event.printLine "Already up to date",
            Event.printLine (currentHeadMsg c)]
        else
          [Event.printLine (resettingMsg s.branch), Event.spawnBar,
            Event.vcsReset c.id ResetType.hard, Event.barFinish,
            Event.printLine "Local branch reset to 'origin/HEAD'",
            Event.printLine (currentHeadMsg c)]),
      Outcome.normal) := by
  have h1 := run_eq_of_open w s repo hopen
  have h2 := sync_eq w s repo remote originHead ac localOid c
    hremote hfetch href hann hbr hcommit hreset
  have h3 := main_eq w xml s repo _ _ _ hxml hparse hu hp h1 h2
  rw [h3]
  by_cases h : localOid = ac.id <;> simp [h]

/-- C1 (witness): the amended theorem instantiated at the concrete world
`wSubDiff`, whose local tip 3 differs from origin/HEAD commit 5. -/
theorem c1_subsequent_fetch_and_reset_witness :
    main wSubDiff =
      ([Event.fileRead "./settings.xml", Event.vcsOpen "/srv/app",
        Event.vcsFindRemote "origin",
        Event.vcsFetch "origin" ["refs/head/dev"],
        Event.vcsFindReference "refs/remotes/origin/HEAD",
        Event.vcsFindBranch "dev", Event.vcsFindCommit 5,
        Event.printLine "Resetting local 'dev' to 'origin/HEAD'...",
        Event.spawnBar, Event.vcsReset 5 ResetType.hard, Event.barFinish,
        Event.printLine "Local branch reset to 'origin/HEAD'",
        Event.printLine "Current HEAD at commit 5: bump version"],
      Outcome.normal) := by
  have h := c1_subsequent_fetch_and_reset wSubDiff "<Settings></Settings>"
    settingsA repoA { id := 1 } { id := 1 } { id := 5 } 3
    { id := 5, message := some "  bump version  " }
    rfl rfl (by decide) (by decide) rfl rfl rfl rfl rfl rfl rfl rfl
  rw [h]
  decide

/-- C2: on a first run — no repository can be opened at the configured
path — the program performs a clone of the configured url into the
configured path with the configured branch checked out and fetch depth 1
(whatever the clone's result is). -/
theorem c2_first_run_shallow_clone (w : World) (xml : String) (s : Settings)
    (hxml : w.settingsXml = some xml)
    (hparse : w.parseSettings xml = some s)
    (hu : s.url.isEmpty = false) (hp : s.path.isEmpty = false)
    (hopen : w.openRepo s.path = none) :
    Event.vcsClone s.branch s.url s.path 1 ∈ (main w).1 := by
  have hm : Event.vcsClone s.branch s.url s.path 1 ∈ (run w s).1 := by
    rcases hc : w.cloneRepo s.branch s.url s.path 1 with e | repo
    · by_cases h : e.code = ErrorCode.notFound <;> simp [run, hopen, hc, h]
    · simp [run, hopen, hc]
  rcases hr : run w s with ⟨tr, res⟩
  have hmtr : Event.vcsClone s.branch s.url s.path 1 ∈ tr := by
    rw [hr] at hm; exact hm
  rcases res with repo | e | msg <;>
    simp [main, hxml, hparse, hu, hp, hr, hmtr]

/-- C2 (witness): instantiated at the first-run world `wFirst`. -/
theorem c2_first_run_shallow_clone_witness :
    Event.vcsClone "dev" "https://example.com/repo.git" "/srv/app" 1 ∈
      (main wFirst).1 := by
  have h := c2_first_run_shallow_clone wFirst "<Settings></Settings>"
    settingsA rfl rfl (by decide) (by decide) rfl
  simpa using h

/-- C3 (counterexample): not every failure panics. In the concrete world
`wCloneErr` the clone fails with a non-`NotFound` error, yet the program
terminates normally after printing `error: network failure` — a failure
reported without terminating by panic. -/
theorem c3_nonpanic_clone_error :
    wCloneErr.cloneRepo settingsA.branch settingsA.url settingsA.path 1 =
      Except.error { code := ErrorCode.other, msg := "network failure" } ∧
    (main wCloneErr).2 = Outcome.normal ∧
    Event.printLine "error: network failure" ∈ (main wCloneErr).1 := by
  refine ⟨rfl, by decide, by decide⟩

/-- C3 (amended): a missing configuration file or a failed parse panics;
a clone failure with code `NotFound` panics with the explicit message;
every unwrapped synchronisation failure — a failed remote lookup, fetch,
origin/HEAD reference lookup, annotated-commit conversion, local-branch
lookup, absent branch target, commit lookup, or hard reset — panics; but
a clone failure with any other code is reported by printing
`error: <message>` followed by normal termination, and a failed
repository open is recovered from by falling through to the clone. -/
theorem c3_failure_handling :
    (∀ w : World, w.settingsXml = none →
      (main w).2 = Outcome.panic unwrapErrMsg) ∧
    (∀ (w : World) (xml : String), w.settingsXml = some xml →
      w.parseSettings xml = none →
      (main w).2 = Outcome.panic unwrapErrMsg) ∧
    (∀ (w : World) (xml : String) (s : Settings) (e : GitError),
      w.settingsXml = some xml → w.parseSettings xml = some s →
      s.url.isEmpty = false → s.path.isEmpty = false →
      w.openRepo s.path = none →
      w.cloneRepo s.branch s.url s.path 1 = Except.error e →
      (e.code = ErrorCode.notFound →
        main w = (Event.fileRead "./settings.xml" ::
          [Event.vcsOpen s.path, Event.spawnBar,
            Event.printLine (cloningMsg s),
            Event.vcsClone s.branch s.url s.path 1],
          Outcome.panic (cloneNotFoundMsg s))) ∧
      (e.code ≠ ErrorCode.notFound →
        main w = (Event.fileRead "./settings.xml" ::
          ([Event.vcsOpen s.path, Event.spawnBar,
            Event.printLine (cloningMsg s),
            Event.vcsClone s.branch s.url s.path 1] ++
            [Event.printLine ("error: " ++ e.msg)]),
          Outcome.normal))) ∧
    (∀ (w : World) (s : Settings) (repo : Repo),
      w.openRepo s.path = none →
      w.cloneRepo s.branch s.url s.path 1 = Except.ok repo →
      (run w s).2 = RunResult.ok repo) ∧
    (∀ (w : World) (xml : String) (s : Settings) (repo : Repo),
      w.settingsXml = some xml → w.parseSettings xml = some s →
      s.url.isEmpty = false → s.path.isEmpty = false →
      w.openRepo s.path = some repo →
      w.findRemote repo "origin" = none →
      (main w).2 = Outcome.panic unwrapErrMsg) ∧
    (∀ (w : World) (xml : String) (s : Settings) (repo : Repo)
      (remote : Remote),
      w.settingsXml = some xml → w.parseSettings xml = some s →
      s.url.isEmpty = false → s.path.isEmpty = false →
      w.openRepo s.path = some repo →
      w.findRemote repo "origin" = some remote →
      w.fetchRemote remote ["refs/head/" ++ s.branch] = none →
      (main w).2 = Outcome.panic unwrapErrMsg) ∧
    (∀ (w : World) (xml : String) (s : Settings) (repo : Repo)
      (remote : Remote),
      w.settingsXml = some xml → w.parseSettings xml = some s →
      s.url.isEmpty = false → s.path.isEmpty = false →
      w.openRepo s.path = some repo →
      w.findRemote repo "origin" = some remote →
      w.fetchRemote remote ["refs/head/" ++ s.branch] = some () →
      w.findReference repo "refs/remotes/origin/HEAD" = none →
      (main w).2 = Outcome.panic unwrapErrMsg) ∧
    (∀ (w : World) (xml : String) (s : Settings) (repo : Repo)
      (remote : Remote) (originHead : GitRef),
      w.settingsXml = some xml → w.parseSettings xml = some s →
      s.url.isEmpty = false → s.path.isEmpty = false →
      w.openRepo s.path = some repo →
      w.findRemote repo "origin" = some remote →
      w.fetchRemote remote ["refs/head/" ++ s.branch] = some () →
      w.findReference repo "refs/remotes/origin/HEAD" = some originHead →
      w.refToAnnotatedCommit originHead = none →
      (main w).2 = Outcome.panic unwrapErrMsg) ∧
    (∀ (w : World) (xml : String) (s : Settings) (repo : Repo)
      (remote : Remote) (originHead : GitRef) (ac : AnnotatedCommit),
      w.settingsXml = some xml → w.parseSettings xml = some s →
      s.url.isEmpty = false → s.path.isEmpty = false →
      w.openRepo s.path = some repo →
      w.findRemote repo "origin" = some remote →
      w.fetchRemote remote ["refs/head/" ++ s.branch] = some () →
      w.findReference repo "refs/remotes/origin/HEAD" = some originHead →
      w.refToAnnotatedCommit originHead = some ac →
      w.findBranch repo s.branch = none →
      (main w).2 = Outcome.panic unwrapErrMsg) ∧
    (∀ (w : World) (xml : String) (s : Settings) (repo : Repo)
      (remote : Remote) (originHead : GitRef) (ac : AnnotatedCommit),
      w.settingsXml = some xml → w.parseSettings xml = some s →
      s.url.isEmpty = false → s.path.isEmpty = false →
      w.openRepo s.path = some repo →
      w.findRemote repo "origin" = some remote →
      w.fetchRemote remote ["refs/head/" ++ s.branch] = some () →
      w.findReference repo "refs/remotes/origin/HEAD" = some originHead →
      w.refToAnnotatedCommit originHead = some ac →
      w.findBranch repo s.branch = some { target := none } →
      (main w).2 = Outcome.panic unwrapNoneMsg) ∧
    (∀ (w : World) (xml : String) (s : Settings) (repo : Repo)
      (remote : Remote) (originHead : GitRef) (ac : AnnotatedCommit)
      (localOid : Oid),
      w.settingsXml = some xml → w.parseSettings xml = some s →
      s.url.isEmpty = false → s.path.isEmpty = false →
      w.openRepo s.path = some repo →
      w.findRemote repo "origin" = some remote →
      w.fetchRemote remote ["refs/head/" ++ s.branch] = some () →
      w.findReference repo "refs/remotes/origin/HEAD" = some originHead →
      w.refToAnnotatedCommit originHead = some ac →
      w.findBranch repo s.branch = some { target := some localOid } →
      w.findCommit ac.id = none →
      (main w).2 = Outcome.panic unwrapErrMsg) ∧
    (∀ (w : World) (xml : String) (s : Settings) (repo : Repo)
      (remote : Remote) (originHead : GitRef) (ac : AnnotatedCommit)
      (localOid : Oid) (c : Commit),
      w.settingsXml = some xml → w.parseSettings xml = some s →
      s.url.isEmpty = false → s.path.isEmpty = false →
      w.openRepo s.path = some repo →
      w.findRemote repo "origin" = some remote →
      w.fetchRemote remote ["refs/head/" ++ s.branch] = some () →
      w.findReference repo "refs/remotes/origin/HEAD" = some originHead →
      w.refToAnnotatedCommit originHead = some ac →
      w.findBranch repo s.branch = some { target := some localOid } →
      w.findCommit ac.id = some c →
      localOid ≠ ac.id →
      w.resetHard repo c.id = none →
      (main w).2 = Outcome.panic unwrapErrMsg) := by
  refine ⟨?_, ?_, ?_, ?_, ?_, ?_, ?_, ?_, ?_, ?_, ?_, ?_⟩
  · intro w h
    simp [main, h]
  · intro w xml h1 h2
    simp [main, h1, h2]
  · intro w xml s e hxml hparse hu hp hopen hclone
    have hr := run_eq_of_clone_error w s e hopen hclone
    constructor
    · intro hnf
      rw [if_pos hnf] at hr
      exact main_eq_panicked w xml s _ _ hxml hparse hu hp hr
    · intro hother
      rw [if_neg hother] at hr
      exact main_eq_err w xml s e _ hxml hparse hu hp hr
  · intro w s repo hopen hclone
    rw [run_eq_of_clone w s repo hopen hclone]
  · intro w xml s repo hxml hparse hu hp hopen hremote
    simp [main, hxml, hparse, hu, hp, run_eq_of_open w s repo hopen,
      sync, hremote]
  · intro w xml s repo remote hxml hparse hu hp hopen hremote hfetch
    simp [main, hxml, hparse, hu, hp, run_eq_of_open w s repo hopen,
      sync, hremote, hfetch]
  · intro w xml s repo remote hxml hparse hu hp hopen hremote hfetch href
    simp [main, hxml, hparse, hu, hp, run_eq_of_open w s repo hopen,
      sync, hremote, hfetch, href]
  · intro w xml s repo remote originHead hxml hparse hu hp hopen hremote
      hfetch href hann
    simp [main, hxml, hparse, hu, hp, run_eq_of_open w s repo hopen,
      sync, hremote, hfetch, href, hann]
  · intro w xml s repo remote originHead ac hxml hparse hu hp hopen hremote
      hfetch href hann hbr
    simp [main, hxml, hparse, hu, hp, run_eq_of_open w s repo hopen,
      sync, hremote, hfetch, href, hann, hbr]
  · intro w xml s repo remote originHead ac hxml hparse hu hp hopen hremote
      hfetch href hann hbr
    simp [main, hxml, hparse, hu, hp, run_eq_of_open w s repo hopen,
      sync, hremote, hfetch, href, hann, hbr]
  · intro w xml s repo remote originHead ac localOid hxml hparse hu hp hopen
      hremote hfetch href hann hbr hcommit
    simp [main, hxml, hparse, hu, hp, run_eq_of_open w s repo hopen,
      sync, hremote, hfetch, href, hann, hbr, hcommit]
  · intro w xml s repo remote originHead ac localOid c hxml hparse hu hp
      hopen hremote hfetch href hann hbr hcommit hne hreset
    simp [main, hxml, hparse, hu, hp, run_eq_of_open w s repo hopen,
      sync, hremote, hfetch, href, hann, hbr, hcommit, hne, hreset]

/-- C3 (witness): the amended theorem instantiated at the concrete worlds
with a missing configuration file, a `NotFound` clone failure, a network
clone failure, a failed fetch, and a failed hard reset. -/
theorem c3_failure_handling_witness :
    (main wNoFile).2 = Outcome.panic unwrapErrMsg ∧
    (main wCloneNF).2 = Outcome.panic (cloneNotFoundMsg settingsA) ∧
    (main wCloneErr).2 = Outcome.normal ∧
    (main wFetchFail).2 = Outcome.panic unwrapErrMsg ∧
    (main wResetFail).2 = Outcome.panic unwrapErrMsg := by
  obtain ⟨h1, h2, h3, h4, h5, h6, h7, h8, h9, h10, h11, h12⟩ :=
    c3_failure_handling
  refine ⟨h1 wNoFile rfl, ?_, ?_, ?_, ?_⟩
  · have h := (h3 wCloneNF "<Settings></Settings>"
      settingsA { code := .notFound, msg := "branch not found" }
      rfl rfl (by decide) (by decide) rfl rfl).1 rfl
    rw [h]
  · have h := (h3 wCloneErr "<Settings></Settings>"
      settingsA { code := .other, msg := "network failure" }
      rfl rfl (by decide) (by decide) rfl rfl).2 (by decide)
    rw [h]
  · exact h6 wFetchFail "<Settings></Settings>" settingsA repoA { id := 1 }
      rfl rfl (by decide) (by decide) rfl rfl rfl
  · exact h12 wResetFail "<Settings></Settings>" settingsA repoA { id := 1 }
      { id := 1 } { id := 5 } 3 { id := 5, message := some "  bump version  " }
      rfl rfl (by decide) (by decide) rfl rfl rfl rfl rfl rfl rfl
      (by decide) rfl

/-- C4: when the parsed settings have an empty url or an empty path, the
program panics with `url or path could not be empty` and its whole trace
is the configuration-file read — in particular no version-control
operation is performed. -/
theorem c4_empty_url_or_path_aborts (w : World) (xml : String) (s : Settings)
    (hxml : w.settingsXml = some xml)
    (hparse : w.parseSettings xml = some s)
    (hbad : (s.url.isEmpty || s.path.isEmpty) = true) :
    main w = ([Event.fileRead "./settings.xml"],
      Outcome.panic "url or path could not be empty") := by
  simp [main, hxml, hparse, hbad]

/-- C4 (witness): instantiated at the world whose settings have an empty
url. -/
theorem c4_empty_url_or_path_aborts_witness :
    main wEmptyUrl = ([Event.fileRead "./settings.xml"],
      Outcome.panic "url or path could not be empty") :=
  c4_empty_url_or_path_aborts wEmptyUrl "<Settings></Settings>"
    settingsEmptyUrl rfl rfl (by decide)

/-- C5: when a repository can be opened at the configured path, `run`
returns that repository at once and its trace is only the open call: no
clone, no progress-bar spawn, no cloning message. -/
theorem c5_open_short_circuits (w : World) (s : Settings) (repo : Repo)
    (hopen : w.openRepo s.path = some repo) :
    run w s = ([Event.vcsOpen s.path], RunResult.ok repo) :=
  run_eq_of_open w s repo hopen

/-- C5 (witness): instantiated at `wSubDiff`, whose repository opens. -/
theorem c5_open_short_circuits_witness :
    run wSubDiff settingsA = ([Event.vcsOpen "/srv/app"], RunResult.ok repoA) := by
  have h := c5_open_short_circuits wSubDiff settingsA repoA rfl
  rw [h]
  decide

/-- C6: the configuration is exactly the three strings url, path and
branch (the `Settings` record is nothing but those fields); the only
configuration-file read in a run is of the fixed path `./settings.xml`;
and each of the three strings reaches a version-control call unchanged:
the path in the open call, all three in the clone call, and the branch in
the local-branch lookup. -/
theorem c6_settings_passed_unchanged (w : World) (xml : String)
    (s : Settings) (repo : Repo) (remote : Remote) (originHead : GitRef)
    (ac : AnnotatedCommit) (localOid : Oid) (c : Commit)
    (hxml : w.settingsXml = some xml)
    (hparse : w.parseSettings xml = some s)
    (hu : s.url.isEmpty = false) (hp : s.path.isEmpty = false)
    (hopen : w.openRepo s.path = none)
    (hclone : w.cloneRepo s.branch s.url s.path 1 = .ok repo)
    (hremote : w.findRemote repo "origin" = some remote)
    (hfetch : w.fetchRemote remote ["refs/head/" ++ s.branch] = some ())
    (href : w.findReference repo "refs/remotes/origin/HEAD" = some originHead)
    (hann : w.refToAnnotatedCommit originHead = some ac)
    (hbr : w.findBranch repo s.branch = some { target := some localOid })
    (hcommit : w.findCommit ac.id = some c)
    (hreset : w.resetHard repo c.id = some ()) :
    s = Settings.mk s.url s.path s.branch ∧
    (main w).1.filter Event.isFileRead = [Event.fileRead "./settings.xml"] ∧
    Event.vcsOpen s.path ∈ (main w).1 ∧
    Event.vcsClone s.branch s.url s.path 1 ∈ (main w).1 ∧
    Event.vcsFindBranch s.branch ∈ (main w).1 := by
  have h1 := run_eq_of_clone w s repo hopen hclone
  have h2 := sync_eq w s repo remote originHead ac localOid c
    hremote hfetch href hann hbr hcommit hreset
  have h3 := main_eq w xml s repo _ _ _ hxml hparse hu hp h1 h2
  rw [h3]
  refine ⟨rfl, ?_, ?_, ?_, ?_⟩ <;>
    by_cases h : localOid = ac.id <;>
      simp [h, Event.isFileRead, List.filter]

/-- C6 (witness): instantiated at the first-run world `wFirst`. -/
theorem c6_settings_passed_unchanged_witness :
    settingsA = Settings.mk "https://example.com/repo.git" "/srv/app" "dev" ∧
    (main wFirst).1.filter Event.isFileRead =
      [Event.fileRead "./settings.xml"] ∧
    Event.vcsOpen "/srv/app" ∈ (main wFirst).1 ∧
    Event.vcsClone "dev" "https://example.com/repo.git" "/srv/app" 1 ∈
      (main wFirst).1 ∧
    Event.vcsFindBranch "dev" ∈ (main wFirst).1 := by
  have h := c6_settings_passed_unchanged wFirst "<Settings></Settings>"
    settingsA repoA { id := 1 } { id := 1 } { id := 5 } 3
    { id := 5, message := some "  bump version  " }
    rfl rfl (by decide) (by decide) rfl rfl rfl rfl rfl rfl rfl rfl rfl
  exact h

/-- C7 (counterexample): the claimed merge-analysis step does not exist.
In a concrete first run that opens (fails), clones, fetches and hard
resets, the trace contains a fetch call and a reset call but no
merge-analysis call at all — in particular none between the fetch and the
reset. -/
theorem c7_no_merge_analysis_call :
    Event.vcsFetch "origin" ["refs/head/dev"] ∈ (main wFirst).1 ∧
    Event.vcsReset 5 ResetType.hard ∈ (main wFirst).1 ∧
    (main wFirst).1.any Event.isMergeAnalysis = false := by
  refine ⟨by decide, by decide, by decide⟩

/-- C7 (amended): the program's behaviour is a sequence of
version-control calls in the order open, clone (on a first run), fetch,
reference/branch/commit lookups, reset; no merge-analysis call is
performed anywhere — the decision to reset is made by directly comparing
the local tip's commit id with the origin/HEAD commit id. -/
theorem c7_vcs_call_order (w : World) (xml : String) (s : Settings)
    (repo : Repo) (remote : Remote) (originHead : GitRef)
    (ac : AnnotatedCommit) (localOid : Oid) (c : Commit)
    (hxml : w.settingsXml = some xml)
    (hparse : w.parseSettings xml = some s)
    (hu : s.url.isEmpty = false) (hp : s.path.isEmpty = false)
    (hopen : w.openRepo s.path = none)
    (hclone : w.cloneRepo s.branch s.url s.path 1 = .ok repo)
    (hremote : w.findRemote repo "origin" = some remote)
    (hfetch : w.fetchRemote remote ["refs/head/" ++ s.branch] = some ())
    (href : w.findReference repo "refs/remotes/origin/HEAD" = some originHead)
    (hann : w.refToAnnotatedCommit originHead = some ac)
    (hbr : w.findBranch repo s.branch = some { target := some localOid })
    (hcommit : w.findCommit ac.id = some c)
    (hreset : w.resetHard repo c.id = some ())
    (hne : localOid ≠ ac.id) :
    (main w).1.filter Event.isVcs =
      [Event.vcsOpen s.path, Event.vcsClone s.branch s.url s.path 1,
        Event.vcsFindRemote "origin",
        Event.vcsFetch "origin" ["refs/head/" ++ s.branch],
        Event.vcsFindReference "refs/remotes/origin/HEAD",
        Event.vcsFindBranch s.branch, Event.vcsFindCommit ac.id,
        Event.vcsReset c.id ResetType.hard] ∧
    (main w).1.any Event.isMergeAnalysis = false := by
  have h1 := run_eq_of_clone w s repo hopen hclone
  have h2 := sync_eq w s repo remote originHead ac localOid c
    hremote hfetch href hann hbr hcommit hreset
  have h3 := main_eq w xml s repo _ _ _ hxml hparse hu hp h1 h2
  rw [h3]
  constructor <;>
    simp [hne, Event.isVcs, Event.isMergeAnalysis, List.filter]

/-- C7 (witness): the amended theorem instantiated at the first-run world
`wFirst`. -/
theorem c7_vcs_call_order_witness :
    (main wFirst).1.filter Event.isVcs =
      [Event.vcsOpen "/srv/app",
        Event.vcsClone "dev" "https://example.com/repo.git" "/srv/app" 1,
        Event.vcsFindRemote "origin",
        Event.vcsFetch "origin" ["refs/head/dev"],
        Event.vcsFindReference "refs/remotes/origin/HEAD",
        Event.vcsFindBranch "dev", Event.vcsFindCommit 5,
        Event.vcsReset 5 ResetType.hard] ∧
    (main wFirst).1.any Event.isMergeAnalysis = false := by
  have h := c7_vcs_call_order wFirst "<Settings></Settings>"
    settingsA repoA { id := 1 } { id := 1 } { id := 5 } 3
    { id := 5, message := some "  bump version  " }
    rfl rfl (by decide) (by decide) rfl rfl rfl rfl rfl rfl rfl rfl rfl
    (by decide)
  exact ⟨by rw [h.1]; decide, h.2⟩

/-- C8: on a subsequent run whose fetch leaves the local tip equal to the
origin/HEAD commit id, the program prints `Already up to date`, performs
no reset (the full trace, given explicitly, contains no reset event and
no progress-bar spawn), and afterwards prints only the current-HEAD
status line. -/
theorem c8_up_to_date_no_reset (w : World) (xml : String) (s : Settings)
    (repo : Repo) (remote : Remote) (originHead : GitRef)
    (ac : AnnotatedCommit) (c : Commit)
    (hxml : w.settingsXml = some xml)
    (hparse : w.parseSettings xml = some s)
    (hu : s.url.isEmpty = false) (hp : s.path.isEmpty = false)
    (hopen : w.openRepo s.path = some repo)
    (hremote : w.findRemote repo "origin" = some remote)
    (hfetch : w.fetchRemote remote ["refs/head/" ++ s.branch] = some ())
    (href : w.findReference repo "refs/remotes/origin/HEAD" = some originHead)
    (hann : w.refToAnnotatedCommit originHead = some ac)
    (hbr : w.findBranch repo s.branch = some { target := some ac.id })
    (hcommit : w.findCommit ac.id = some c) :
    main w = ([Event.fileRead "./settings.xml", Event.vcsOpen s.path,
      Event.vcsFindRemote "origin",
      Event.vcsFetch "origin" ["refs/head/" ++ s.branch],
      Event.vcsFindReference "refs/remotes/origin/HEAD",
      Event.vcsFindBranch s.branch, Event.vcsFindCommit ac.id,
      Event.printLine "Already up to date",
      Event.printLine (currentHeadMsg c)], Outcome.normal) := by
  have h1 := run_eq_of_open w s repo hopen
  simp [main, hxml, hparse, hu, hp, h1, sync, hremote, hfetch, href, hann,
    hbr, hcommit]

/-- C8 (witness): instantiated at `wSubSame`, whose local tip equals the
origin/HEAD commit 5. -/
theorem c8_up_to_date_no_reset_witness :
    main wSubSame = ([Event.fileRead "./settings.xml",
      Event.vcsOpen "/srv/app", Event.vcsFindRemote "origin",
      Event.vcsFetch "origin" ["refs/head/dev"],
      Event.vcsFindReference "refs/remotes/origin/HEAD",
      Event.vcsFindBranch "dev", Event.vcsFindCommit 5,
      Event.printLine "Already up to date",
      Event.printLine "Current HEAD at commit 5: bump version"],
      Outcome.normal) := by
  have h := c8_up_to_date_no_reset wSubSame "<Settings></Settings>"
    settingsA repoA { id := 1 } { id := 1 } { id := 5 }
    { id := 5, message := some "  bump version  " }
    rfl rfl (by decide) (by decide) rfl rfl rfl rfl rfl rfl rfl
  rw [h]
  decide

/-- C9: both progress callbacks set the bar's length to the reported
total and its position to the minimum of the reported current count and
the total, so in every transfer-progress and checkout-progress invocation
the resulting position never exceeds the resulting length. -/
theorem c9_progress_position_le_length
    (receivedObjects totalObjects cur total : Nat)
    (pb1 pb2 : ProgressBarState) :
    ((transferProgressCb receivedObjects totalObjects pb1).position ≤
      (transferProgressCb receivedObjects totalObjects pb1).length) ∧
    ((checkoutProgressCb cur total pb2).position ≤
      (checkoutProgressCb cur total pb2).length) := by
  refine ⟨?_, ?_⟩ <;>
    · simp only [transferProgressCb, checkoutProgressCb]
      omega

/-- C10: an empty branch field is not rejected by the configuration
check: with a nonempty url and path and an empty branch, validation
passes, the open call is attempted, and (on a first run) the clone is
invoked with the empty branch name. -/
theorem c10_empty_branch_not_rejected (w : World) (xml : String)
    (s : Settings)
    (hxml : w.settingsXml = some xml)
    (hparse : w.parseSettings xml = some s)
    (hu : s.url.isEmpty = false) (hp : s.path.isEmpty = false)
    (hb : s.branch = "")
    (hopen : w.openRepo s.path = none) :
    Event.vcsOpen s.path ∈ (main w).1 ∧
    Event.vcsClone "" s.url s.path 1 ∈ (main w).1 := by
  rw [← hb]
  have hm : Event.vcsOpen s.path ∈ (run w s).1 ∧
      Event.vcsClone s.branch s.url s.path 1 ∈ (run w s).1 := by
    rcases hc : w.cloneRepo s.branch s.url s.path 1 with e | repo
    · by_cases h : e.code = ErrorCode.notFound <;>
        simp [run, hopen, hc, h]
    · simp [run, hopen, hc]
  rcases hr : run w s with ⟨tr, res⟩
  rw [hr] at hm
  rcases res with repo | e | msg <;>
    constructor <;>
      simp [main, hxml, hparse, hu, hp, hr, hm.1, hm.2]

/-- C10 (witness): instantiated at the first-run world whose parsed
settings have branch `""`. -/
theorem c10_empty_branch_not_rejected_witness :
    Event.vcsOpen "/srv/app" ∈ (main wEmptyBranch).1 ∧
    Event.vcsClone "" "https://example.com/repo.git" "/srv/app" 1 ∈
      (main wEmptyBranch).1 := by
  have h := c10_empty_branch_not_rejected wEmptyBranch "<Settings></Settings>"
    settingsEmptyBranch rfl rfl (by decide) (by decide) rfl rfl
  exact h

end GitbaseAutoUpdate
